import Mathlib

/-!
Verification of the MindScanAI scoring & classification engine.

The definitions below are a shallow embedding of
`MindScanAI/diagnostic/analysis_engine.py` (class `CodeBasedAnalysisEngine`)
and `MindScanAI/crisis/intervention.py` (method `assess_crisis_level`).
Python dictionaries are modelled as association lists in insertion order
(first binding wins on lookup, matching unique-key dicts), Python ints as
`Int`, and Python float division as exact rational division (the quotients
compared here are small enough that IEEE double comparison agrees with the
exact rational comparison at every threshold used).  Wall-clock timestamps
(`datetime.datetime.now()`) are modelled as an explicit `now` argument.
-/

namespace MindScan

/-- A raw answer value: Python `int`/`float`, `str`, or `list` (the three
shapes `_extract_response_value` distinguishes). -/
inductive RespValue
  | num (n : Int)
  | str (s : String)
  | list (l : List String)
deriving DecidableEq

/-- A ResponseSet: the `responses` dict, question id to raw answer. -/
abbrev ResponseSet := List (String × RespValue)

/-- Dict lookup: first binding for the key, if any. -/
def lookupResp (r : ResponseSet) (q : String) : Option RespValue :=
  (r.find? (fun p => p.1 == q)).map (fun p => p.2)

/-- `responses.get(q, 0)`. -/
def getResp (r : ResponseSet) (q : String) : RespValue :=
  (lookupResp r q).getD (RespValue.num 0)

/-- `responses.get(q, d)` with an integer default `d`. -/
def getRespD (r : ResponseSet) (q : String) (d : Int) : RespValue :=
  (lookupResp r q).getD (RespValue.num d)

/-- `responses[q] = v`: override the binding for `q`, leaving others as-is. -/
def setResp (r : ResponseSet) (q : String) (v : RespValue) : ResponseSet :=
  (q, v) :: r

/-- The Likert synonym table of `_extract_response_value`. -/
def likertMap : List (String × Int) :=
  [("never", 0), ("rarely", 1), ("sometimes", 2), ("often", 3), ("always", 4),
   ("not at all", 0), ("several days", 1), ("more than half", 2), ("nearly every day", 3),
   ("no difficulty", 0), ("somewhat difficult", 1), ("very difficult", 2), ("extremely difficult", 3),
   ("very good", 0), ("fairly good", 1), ("fairly bad", 2), ("very bad", 3),
   ("none", 0), ("mild", 1), ("moderate", 2), ("severe", 3), ("extreme", 4)]

/-- Python `str.isdigit()`: nonempty and all digits (expressed over the
character list so that it evaluates in proofs). -/
def strIsDigits (s : String) : Bool :=
  (!s.data.isEmpty) && s.data.all Char.isDigit

/-- Python `int(s)` for a digit string. -/
def digitsToInt (s : String) : Int :=
  ((s.data.foldl (fun a c => a * 10 + (c.toNat - 48)) 0 : Nat) : Int)

/-- Embeds `_extract_response_value`: numbers pass through, digit strings
parse, other strings go through the lowercased Likert table (default 0),
and any list yields 0 (the trailing `return 0`). -/
def extractResponseValue : RespValue → Int
  | RespValue.num n => n
  | RespValue.str s =>
      if strIsDigits s then digitsToInt s
      else (((likertMap.find? (fun p => p.1 == s.toLower)).map (fun p => p.2)).getD 0)
  | RespValue.list _ => 0

/-! Instrument configuration tables from `_initialize_scoring_algorithms`. -/

def phq9Questions : List String :=
  ["little_interest", "feeling_down", "sleep_problems", "tired_little_energy",
   "poor_appetite", "feeling_bad", "trouble_concentrating", "moving_slowly",
   "suicidal_thoughts"]

def phq9Domains : List (String × List String) :=
  [("mood", ["little_interest", "feeling_down"]),
   ("neurovegetative", ["sleep_problems", "tired_little_energy", "poor_appetite"]),
   ("cognitive", ["feeling_bad", "trouble_concentrating"]),
   ("psychomotor", ["moving_slowly"]),
   ("suicidality", ["suicidal_thoughts"])]

def gad7Questions : List String :=
  ["feeling_nervous", "not_stop_worrying", "worrying_different_things",
   "trouble_relaxing", "restless_hard_still", "easily_annoyed", "afraid_awful_happen"]

def gad7Domains : List (String × List String) :=
  [("worry", ["feeling_nervous", "not_stop_worrying", "worrying_different_things"]),
   ("physical_tension", ["trouble_relaxing", "restless_hard_still"]),
   ("irritability", ["easily_annoyed"]),
   ("apprehension", ["afraid_awful_happen"])]

def pss10Questions : List String :=
  ["upset_unexpected", "unable_control", "nervous_stressed", "confident_personal",
   "things_going_way", "could_not_cope", "control_irritations", "on_top_things",
   "angered_outside_control", "difficulties_piling"]

def pss10Reverse : List String :=
  ["confident_personal", "things_going_way", "control_irritations", "on_top_things"]

def pss10Domains : List (String × List String) :=
  [("perceived_helplessness", ["upset_unexpected", "unable_control", "could_not_cope", "difficulties_piling"]),
   ("perceived_self_efficacy", ["confident_personal", "things_going_way", "control_irritations", "on_top_things"]),
   ("emotional_distress", ["nervous_stressed", "angered_outside_control"])]

def k10Questions : List String :=
  ["tired_no_reason", "nervous", "nervous_nothing_calm", "hopeless",
   "restless_fidgety", "restless_still", "depressed", "everything_effort",
   "sad_nothing_cheer", "worthless"]

def k10Domains : List (String × List String) :=
  [("anxiety", ["tired_no_reason", "nervous", "nervous_nothing_calm", "restless_fidgety", "restless_still"]),
   ("depression", ["hopeless", "depressed", "sad_nothing_cheer", "worthless"]),
   ("fatigue", ["everything_effort"])]

def psqiLatencyQuestions : List String :=
  ["sleep_latency_minutes", "sleep_latency_difficulty"]

def psqiDisturbanceQuestions : List String :=
  ["wake_middle", "bathroom", "breathe", "cough_snore", "cold", "hot",
   "bad_dreams", "pain", "other_disturb"]

def psqiDaytimeQuestions : List String :=
  ["trouble_staying_awake", "enthusiasm_problems"]

/-- Sum of extracted responses over a question list (missing keys default 0). -/
def sumResponses (r : ResponseSet) (qs : List String) : Int :=
  (qs.map (fun q => extractResponseValue (getResp r q))).sum

/-- Embeds `_calculate_phq9_scores`: simple sum capped at 27, domain sums. -/
def calcPhq9 (r : ResponseSet) : Int × List (String × Int) :=
  (min (sumResponses r phq9Questions) 27,
   phq9Domains.map (fun d => (d.1, sumResponses r d.2)))

/-- Embeds `_calculate_gad7_scores`: simple sum capped at 21, domain sums. -/
def calcGad7 (r : ResponseSet) : Int × List (String × Int) :=
  (min (sumResponses r gad7Questions) 21,
   gad7Domains.map (fun d => (d.1, sumResponses r d.2)))

/-- Scored contribution of one PSS-10 item: `4 - raw` on reverse items. -/
def pss10ItemScore (q : String) (raw : Int) : Int :=
  if pss10Reverse.contains q then 4 - raw else raw

/-- PSS-10 scored value of question `q` in ResponseSet `r`. -/
def pss10Item (r : ResponseSet) (q : String) : Int :=
  pss10ItemScore q (extractResponseValue (getResp r q))

/-- Embeds `_calculate_pss10_scores`: reverse-scored sum capped at 40. -/
def calcPss10 (r : ResponseSet) : Int × List (String × Int) :=
  (min ((pss10Questions.map (pss10Item r)).sum) 40,
   pss10Domains.map (fun d => (d.1, (d.2.map (pss10Item r)).sum)))

/-- PSQI "component" banding of a sub-sum (0, 1 for 1-2, 2 for 3-4, else 3). -/
def psqiComponentBand (total : Int) : Int :=
  if total = 0 then 0 else if total ≤ 2 then 1 else if total ≤ 4 then 2 else 3

/-- PSQI disturbance banding (0, 1 for 1-9, 2 for 10-18, else 3). -/
def psqiDisturbanceBand (total : Int) : Int :=
  if total = 0 then 0 else if total ≤ 9 then 1 else if total ≤ 18 then 2 else 3

/-- PSQI sleep-duration banding (more sleep scores lower). -/
def psqiDurationBand (hours : Int) : Int :=
  if 7 ≤ hours then 0 else if 6 ≤ hours then 1 else if 5 ≤ hours then 2 else 3

/-- PSQI sleep-efficiency banding.  The source compares the float
percentage `(hours_sleep / time_in_bed) * 100` against 85/75/65; inside
the `time_in_bed > 0` branch this equals the integer cross-multiplied
comparison used here (`ratioPct_le_iff` below proves the equivalence with
the exact rational comparison; the quotients of small integers compared
against these thresholds round identically in IEEE doubles). -/
def psqiEfficiencyScore (hoursSleep timeInBed : Int) : Int :=
  if 0 < timeInBed then
    if 85 * timeInBed ≤ 100 * hoursSleep then 0
    else if 75 * timeInBed ≤ 100 * hoursSleep then 1
    else if 65 * timeInBed ≤ 100 * hoursSleep then 2
    else 3
  else 3

/-- Embeds `_calculate_psqi_scores` / `_calculate_psqi_component`: the seven
components in configuration order.  Note the defaults: a missing
`hours_sleep` reads as 7 and a missing `time_in_bed` as 8. -/
def psqiComponents (r : ResponseSet) : List (String × Int) :=
  [("sleep_quality", min (extractResponseValue (getResp r "sleep_quality")) 3),
   ("sleep_latency", psqiComponentBand (sumResponses r psqiLatencyQuestions)),
   ("sleep_duration", psqiDurationBand (extractResponseValue (getRespD r "hours_sleep" 7))),
   ("sleep_efficiency", psqiEfficiencyScore (extractResponseValue (getRespD r "hours_sleep" 7))
      (extractResponseValue (getRespD r "time_in_bed" 8))),
   ("sleep_disturbances", psqiDisturbanceBand (sumResponses r psqiDisturbanceQuestions)),
   ("sleep_medication", min (extractResponseValue (getResp r "sleep_medication")) 3),
   ("daytime_dysfunction", psqiComponentBand (sumResponses r psqiDaytimeQuestions))]

def calcPsqi (r : ResponseSet) : Int × List (String × Int) :=
  (min (((psqiComponents r).map (fun p => p.2)).sum) 21, psqiComponents r)

/-- Embeds `_calculate_k10_scores`: each 0-4 raw value is shifted to the
1-5 K10 scale, summed and capped at 50. -/
def calcK10 (r : ResponseSet) : Int × List (String × Int) :=
  (min ((k10Questions.map (fun q => extractResponseValue (getResp r q) + 1)).sum) 50,
   k10Domains.map (fun d => (d.1, (d.2.map (fun q => extractResponseValue (getResp r q) + 1)).sum)))

/-- The five assessment-type keys of `scoring_algorithms`. -/
def supportedTypes : List String :=
  ["Depression Screening", "Anxiety Disorders Screening", "Stress & Trauma Assessment",
   "Sleep Disorders Screening", "General Mental Health Screening"]

/-- Embeds `_calculate_scores`: dispatch on the assessment type; any other
type falls through to summation over the (empty) question list of the empty
configuration, capped at the default max 100. -/
def calculateScores (assessmentType : String) (r : ResponseSet) : Int × List (String × Int) :=
  if assessmentType == "Depression Screening" then calcPhq9 r
  else if assessmentType == "Anxiety Disorders Screening" then calcGad7 r
  else if assessmentType == "Stress & Trauma Assessment" then calcPss10 r
  else if assessmentType == "Sleep Disorders Screening" then calcPsqi r
  else if assessmentType == "General Mental Health Screening" then calcK10 r
  else (min (0 : Int) 100, [])

/-- The `SeverityLevel` enum. -/
inductive SeverityLevel
  | minimal | mild | moderate | moderately_severe | severe
deriving DecidableEq

/-- The `RiskLevel` enum. -/
inductive RiskLevel
  | low | moderate | high | critical
deriving DecidableEq

/-- Per-instrument cutoff tables (`cutoffs` entries of `scoring_algorithms`),
in dict insertion order: (band name, min, max). -/
def cutoffsFor (t : String) : List (String × Int × Int) :=
  if t == "Depression Screening" then
    [("minimal", 0, 4), ("mild", 5, 9), ("moderate", 10, 14),
     ("moderately_severe", 15, 19), ("severe", 20, 27)]
  else if t == "Anxiety Disorders Screening" then
    [("minimal", 0, 4), ("mild", 5, 9), ("moderate", 10, 14), ("severe", 15, 21)]
  else if t == "Stress & Trauma Assessment" then
    [("minimal", 0, 13), ("mild", 14, 19), ("moderate", 20, 26), ("severe", 27, 40)]
  else if t == "Sleep Disorders Screening" then
    [("good", 0, 5), ("poor", 6, 21)]
  else if t == "General Mental Health Screening" then
    [("likely_well", 10, 15), ("likely_mild", 16, 21), ("likely_moderate", 22, 29),
     ("likely_severe", 30, 50)]
  else []

/-- `algorithm_config.get("max_score", 100)`. -/
def maxScoreFor (t : String) : Int :=
  if t == "Depression Screening" then 27
  else if t == "Anxiety Disorders Screening" then 21
  else if t == "Stress & Trauma Assessment" then 40
  else if t == "Sleep Disorders Screening" then 21
  else if t == "General Mental Health Screening" then 50
  else 100

/-- The `severity_mapping` dict inside `_determine_severity` (`.get` default
`MODERATE`). -/
def severityMapping (name : String) : SeverityLevel :=
  if name == "minimal" then SeverityLevel.minimal
  else if name == "mild" then SeverityLevel.mild
  else if name == "moderate" then SeverityLevel.moderate
  else if name == "moderately_severe" then SeverityLevel.moderately_severe
  else if name == "severe" then SeverityLevel.severe
  else if name == "good" then SeverityLevel.minimal
  else if name == "poor" then SeverityLevel.moderate
  else if name == "likely_well" then SeverityLevel.minimal
  else if name == "likely_mild" then SeverityLevel.mild
  else if name == "likely_moderate" then SeverityLevel.moderate
  else if name == "likely_severe" then SeverityLevel.severe
  else SeverityLevel.moderate

/-- The percentage-of-max fallback at the end of `_determine_severity`.
The source compares the float percentage `(total_score / max_score) * 100`
against 80/60/30; every max_score in use is positive (21..100), where this
equals the integer cross-multiplied comparison used here (`ratioPct_le_iff`
below proves the equivalence with the exact rational comparison; the
quotients of small integers compared against these thresholds round
identically in IEEE doubles). -/
def fallbackSeverity (maxScore score : Int) : SeverityLevel :=
  if 80 * maxScore ≤ 100 * score then SeverityLevel.severe
  else if 60 * maxScore ≤ 100 * score then SeverityLevel.moderate
  else if 30 * maxScore ≤ 100 * score then SeverityLevel.mild
  else SeverityLevel.minimal

/-- Embeds `_determine_severity`: first cutoff interval containing the
score, else the percentage fallback. -/
def determineSeverity (t : String) (score : Int) : SeverityLevel :=
  match (cutoffsFor t).find? (fun c => decide (c.2.1 ≤ score) && decide (score ≤ c.2.2)) with
  | some c => severityMapping c.1
  | none => fallbackSeverity (maxScoreFor t) score

def criticalResponses : List String :=
  ["suicidal_ideation", "self_harm", "substance_abuse", "psychosis"]

def highRiskResponses : List String :=
  ["severe_depression", "panic_attacks", "trauma_symptoms"]

/-- `any(extract(responses.get(item, 0)) >= 2 for item in critical_responses)`. -/
def hasCritical (r : ResponseSet) : Bool :=
  criticalResponses.any (fun i => decide ((2 : Int) ≤ extractResponseValue (getResp r i)))

def hasHighRisk (r : ResponseSet) : Bool :=
  highRiskResponses.any (fun i => decide ((3 : Int) ≤ extractResponseValue (getResp r i)))

/-- Embeds `_assess_risk_level`.  The `assessment_type` parameter is taken
but never used by the source. -/
def assessRiskLevel (_assessmentType : String) (r : ResponseSet) (totalScore : Int) : RiskLevel :=
  if hasCritical r then RiskLevel.critical
  else if hasHighRisk r || decide (totalScore > 20) then RiskLevel.high
  else if totalScore > 10 then RiskLevel.moderate
  else RiskLevel.low

/-- Numeric rank of a risk level (low < moderate < high < critical). -/
def riskRank : RiskLevel → Nat
  | RiskLevel.low => 0
  | RiskLevel.moderate => 1
  | RiskLevel.high => 2
  | RiskLevel.critical => 3

/-- Python `max(keys, key=score)`: the first key attaining the maximal
value, `none` on an empty dict. -/
def argmaxDomain : List (String × Int) → Option (String × Int)
  | [] => none
  | p :: ps =>
      match argmaxDomain ps with
      | none => some p
      | some q => if q.2 > p.2 then some q else some p

/-- Embeds `_generate_interpretation`: a severity-keyed narrative plus a
highest-domain insight when domain scores exist. -/
def generateInterpretation (assessmentType : String) (totalScore : Int)
    (domainScores : List (String × Int)) (sev : SeverityLevel) : String :=
  let base :=
    match sev with
    | SeverityLevel.minimal =>
        "The " ++ assessmentType ++ " indicates minimal symptoms with little functional impairment. The total score of " ++ toString totalScore ++ " suggests that current symptoms are within the normal range or represent mild, transient concerns that may not require clinical intervention."
    | SeverityLevel.mild =>
        "The assessment reveals mild symptoms that may warrant attention. With a total score of " ++ toString totalScore ++ ", there are emerging concerns that could benefit from self-care strategies, lifestyle modifications, and monitoring for potential progression."
    | SeverityLevel.moderate =>
        "Moderate symptoms are present with a total score of " ++ toString totalScore ++ ", indicating clinically significant concerns that are likely causing noticeable functional impairment. Professional evaluation and intervention are recommended to prevent symptom progression and improve quality of life."
    | SeverityLevel.moderately_severe =>
        "The assessment indicates moderately severe symptoms (score: " ++ toString totalScore ++ ") with significant functional impairment across multiple life domains. Immediate professional intervention is recommended, with consideration for comprehensive treatment planning including therapy and possible medication evaluation."
    | SeverityLevel.severe =>
        "Severe symptoms are present with a total score of " ++ toString totalScore ++ ", indicating substantial functional impairment and significant distress. Urgent professional evaluation is required, with consideration for intensive treatment interventions and close monitoring for safety concerns."
  match argmaxDomain domainScores with
  | some d =>
      base ++ "\n\nThe highest scoring domain is \x27" ++ d.1 ++ "\x27 with a score of " ++ toString d.2 ++ ", suggesting this area may require particular attention in treatment planning."
  | none => base

/-- Dict membership-and-threshold test `d in scores and scores[d] > k`. -/
def domainExceeds (domainScores : List (String × Int)) (d : String) (k : Int) : Bool :=
  match (domainScores.find? (fun p => p.1 == d)).map (fun p => p.2) with
  | some v => decide (k < v)
  | none => false

/-- Embeds `_generate_recommendations`: severity-based block, then the
domain-keyed additions (with the URGENT suicidality item prepended). -/
def generateRecommendations (_assessmentType : String) (sev : SeverityLevel)
    (domainScores : List (String × Int)) : List String :=
  let base :=
    if sev = SeverityLevel.minimal ∨ sev = SeverityLevel.mild then
      ["Continue regular self-care practices including adequate sleep, exercise, and stress management",
       "Practice mindfulness and relaxation techniques adapted for Indian cultural context",
       "Maintain social connections and family support systems",
       "Monitor symptoms and seek help if they worsen or persist"]
    else if sev = SeverityLevel.moderate then
      ["Seek professional consultation with a qualified mental health provider",
       "Consider structured therapy such as Cognitive Behavioral Therapy (CBT)",
       "Engage family support while maintaining personal autonomy as per Mental Healthcare Act 2017",
       "Implement lifestyle modifications including regular exercise and sleep hygiene"]
    else
      ["Urgent professional evaluation by psychiatrist or clinical psychologist required",
       "Consider comprehensive treatment plan including therapy and medication assessment",
       "Ensure safety planning and crisis support resources are in place",
       "Contact Tele MANAS (1800-891-4416) for immediate professional guidance",
       "Involve trusted family members in treatment planning with patient consent"]
  if domainScores.isEmpty then base
  else
    let withUrgent :=
      if domainExceeds domainScores "suicidality" 2 then
        "URGENT: Immediate safety assessment required due to concerning responses about self-harm thoughts" :: base
      else base
    let sleepAdd :=
      if ["sleep_quality", "sleep_duration", "sleep_disturbances", "daytime_dysfunction"].any
          (fun d => domainExceeds domainScores d 2) then
        ["Address sleep disturbances through sleep hygiene education and possible sleep study evaluation"]
      else []
    let anxietyAdd :=
      if ["worry", "physical_tension", "anxiety"].any (fun d => domainExceeds domainScores d 6) then
        ["Consider anxiety-specific interventions including relaxation training and gradual exposure techniques"]
      else []
    let moodAdd :=
      if domainExceeds domainScores "mood" 4 then
        ["Address mood symptoms through structured therapy and lifestyle modifications"]
      else []
    let stressAdd :=
      if domainExceeds domainScores "perceived_helplessness" 8 then
        ["Focus on stress management and building coping skills through therapy"]
      else []
    let cognitiveAdd :=
      if ["cognitive", "trouble_concentrating"].any (fun d => domainExceeds domainScores d 3) then
        ["Address concentration and cognitive concerns through cognitive rehabilitation techniques"]
      else []
    withUrgent ++ sleepAdd ++ anxietyAdd ++ moodAdd ++ stressAdd ++ cognitiveAdd

/-- Embeds `_identify_red_flags`. -/
def identifyRedFlags (r : ResponseSet) (domainScores : List (String × Int)) : List String :=
  let suicidal :=
    if ["suicidal_ideation", "death_wishes", "self_harm"].any
        (fun i => decide ((1 : Int) ≤ extractResponseValue (getResp r i))) then
      ["Suicidal ideation or self-harm thoughts reported - immediate safety assessment required"]
    else []
  let substance :=
    if ["alcohol_use", "drug_use", "substance_problems"].any
        (fun i => decide ((2 : Int) ≤ extractResponseValue (getResp r i))) then
      ["Concerning substance use patterns identified requiring specialized assessment"]
    else []
  let psychotic :=
    if ["hallucinations", "delusions", "paranoia", "reality_distortion"].any
        (fun i => decide ((1 : Int) ≤ extractResponseValue (getResp r i))) then
      ["Possible psychotic symptoms requiring urgent psychiatric evaluation"]
    else []
  let impairment :=
    if (!domainScores.isEmpty) && decide ((25 : Int) < (domainScores.map (fun p => p.2)).sum) then
      ["Severe functional impairment across multiple life domains"]
    else []
  let trauma :=
    if ["trauma_exposure", "ptsd_symptoms", "dissociation"].any
        (fun i => decide ((2 : Int) ≤ extractResponseValue (getResp r i))) then
      ["Trauma-related symptoms requiring specialized trauma-informed care"]
    else []
  suicidal ++ substance ++ psychotic ++ impairment ++ trauma

/-- Embeds `_generate_next_steps`. -/
def generateNextSteps (_sev : SeverityLevel) (risk : RiskLevel) (redFlags : List String) : List String :=
  let riskSteps :=
    if risk = RiskLevel.critical ∨ ¬redFlags.isEmpty then
      ["IMMEDIATE: Contact emergency services (102) or nearest emergency department if in immediate danger",
       "Contact Tele MANAS helpline: 1800-891-4416 for crisis intervention",
       "Ensure continuous supervision until professional evaluation is completed",
       "Remove access to means of self-harm if suicide risk is present"]
    else if risk = RiskLevel.high then
      ["Schedule urgent appointment with mental health professional within 24-48 hours",
       "Contact Tele MANAS (1800-891-4416) for immediate guidance and support",
       "Inform trusted family member or friend about current mental health status",
       "Consider taking time off work/studies if functioning is significantly impaired"]
    else if risk = RiskLevel.moderate then
      ["Schedule appointment with mental health professional within 1-2 weeks",
       "Begin implementing recommended self-care strategies immediately",
       "Monitor symptoms daily and seek urgent help if worsening",
       "Access Tele MANAS resources for ongoing support and guidance"]
    else
      ["Continue monitoring symptoms and maintain healthy lifestyle practices",
       "Consider preventive mental health consultation if symptoms persist",
       "Utilize available mental health resources and educational materials",
       "Schedule follow-up assessment if concerns arise"]
  riskSteps ++
    ["Save this analysis report for discussion with healthcare provider",
     "Review Mental Healthcare Act 2017 rights and protections available",
     "Consider engaging family support while maintaining personal autonomy",
     "Access additional resources through National Mental Health Programme"]

/-- The `AnalysisResult` dataclass.  (`_apply_diagnostic_criteria` is also
run by the source but its output is discarded, so it is not modelled.) -/
structure AnalysisResult where
  assessment_type : String
  total_score : Int
  max_possible_score : Int
  severity_level : SeverityLevel
  risk_level : RiskLevel
  domain_scores : List (String × Int)
  clinical_interpretation : String
  recommendations : List String
  red_flags : List String
  next_steps : List String
  timestamp : String
deriving DecidableEq

/-- Embeds `analyze_assessment`.  The wall-clock reading
`datetime.datetime.now().isoformat()` is the explicit `now` argument. -/
def analyzeAssessment (now : String) (assessmentType : String) (responses : ResponseSet) :
    AnalysisResult :=
  let scores := calculateScores assessmentType responses
  let totalScore := scores.1
  let domainScores := scores.2
  let sev := determineSeverity assessmentType totalScore
  let risk := assessRiskLevel assessmentType responses totalScore
  let redFlags := identifyRedFlags responses domainScores
  { assessment_type := assessmentType
    total_score := totalScore
    max_possible_score := maxScoreFor assessmentType
    severity_level := sev
    risk_level := risk
    domain_scores := domainScores
    clinical_interpretation := generateInterpretation assessmentType totalScore domainScores sev
    recommendations := generateRecommendations assessmentType sev domainScores
    red_flags := redFlags
    next_steps := generateNextSteps sev risk redFlags
    timestamp := now }

/-! Embedding of `crisis/intervention.py`, method `assess_crisis_level`.
Python raises `TypeError` when an ordered comparison meets a non-numeric
value, so reads feeding `>=` / `<=` are modelled in `Except Unit`;
equality comparisons (`==`, `in`) never fail.  The database write at the
end of the method is external storage and not modelled. -/

/-- The crisis assessment record returned by `assess_crisis_level`
(the dict keys after both `update` calls). -/
structure CrisisAssessment where
  level : String
  score : Int
  risk_factors : List String
  protective_factors : List String
  immediate_action_required : Bool
  professional_contact_required : Bool
  recommended_interventions : List String
  monitoring_frequency : String
  description : String
  response_time : String
  color : String
  timestamp : String
deriving DecidableEq

/-- A value used in an ordered comparison must be numeric (`TypeError`
otherwise). -/
def asInt : RespValue → Except Unit Int
  | RespValue.num n => Except.ok n
  | _ => Except.error ()

/-- Python `responses.get(q) == s` for a string literal `s`. -/
def eqStr (o : Option RespValue) (s : String) : Bool :=
  match o with
  | some (RespValue.str t) => t == s
  | _ => false

/-- Python `responses.get(q) in [s1, ...]`. -/
def inStrList (o : Option RespValue) (ss : List String) : Bool :=
  ss.any (fun s => eqStr o s)

/-- Short-circuiting `any(responses.get(key, 0) >= k for key in keys)`. -/
def anyIntGe (r : ResponseSet) (k : Int) : List String → Except Unit Bool
  | [] => Except.ok false
  | q :: qs =>
      match asInt (getRespD r q 0) with
      | Except.error e => Except.error e
      | Except.ok n => if k ≤ n then Except.ok true else anyIntGe r k qs

/-- The risk-score accumulation of `assess_crisis_level`: score, risk
factors and protective factors, in source evaluation order. -/
def crisisCompute (r : ResponseSet) : Except Unit (Int × List String × List String) := do
  let si ← asInt (getRespD r "dep_005" 0)
  let ideation : Int × List String :=
    if 3 ≤ si then (4, ["Frequent thoughts of death or self-harm"])
    else if 2 ≤ si then (3, ["Occasional thoughts of death or self-harm"])
    else if 1 ≤ si then (1, ["Rare thoughts of death or self-harm"])
    else (0, [])
  let cs1 : Int × List String :=
    if eqStr (lookupResp r "crisis_suicide_001") "Right now" then (5, ["Immediate suicidal ideation"])
    else if eqStr (lookupResp r "crisis_suicide_001") "Often" then (4, ["Frequent suicidal thoughts"])
    else if eqStr (lookupResp r "crisis_suicide_001") "Sometimes" then (2, ["Occasional suicidal thoughts"])
    else (0, [])
  let cs2 : Int × List String :=
    if eqStr (lookupResp r "crisis_suicide_002") "Detailed plan" then (5, ["Detailed suicide plan"])
    else if eqStr (lookupResp r "crisis_suicide_002") "Specific plan" then (4, ["Specific suicide plan"])
    else if eqStr (lookupResp r "crisis_suicide_002") "Vague thoughts" then (2, ["Vague suicide planning"])
    else (0, [])
  let severeImpairment ← anyIntGe r 4 ["severity_function_001", "severity_social_001", "anx_005"]
  let imp : Int × List String :=
    if severeImpairment then (2, ["Severe functional impairment"]) else (0, [])
  let sub : Int × List String :=
    if eqStr (lookupResp r "sub_004") "Yes" then (1, ["Substance use reported"]) else (0, [])
  let trauma : Int × List String :=
    if inStrList (lookupResp r "trauma_001") ["Yes, once", "Yes, multiple times"] then
      (1, ["Trauma history"])
    else (0, [])
  let gen ← asInt (getRespD r "gen_006" 0)
  let prot1 := if 3 ≤ gen then ["Strong coping confidence"] else []
  let prot2 := if eqStr (lookupResp r "sub_001") "No" then ["No alcohol use"] else []
  let sleep ← asInt (getRespD r "sleep_001" 0)
  let prot3 := if sleep ≤ 1 then ["Good sleep quality"] else []
  let score := ideation.1 + cs1.1 + cs2.1 + imp.1 + sub.1 + trauma.1
  let factors := ideation.2 ++ cs1.2 ++ cs2.2 ++ imp.2 ++ sub.2 ++ trauma.2
  Except.ok (score, factors, prot1 ++ prot2 ++ prot3)

/-- Crisis level from the risk score (the threshold ladder in the source). -/
def crisisLevelFor (score : Int) : String :=
  if 10 ≤ score then "level_5_critical"
  else if 8 ≤ score then "level_4_high"
  else if 5 ≤ score then "level_3_moderate"
  else if 2 ≤ score then "level_2_low"
  else "level_1_minimal"

/-- The `crisis_levels` table entries used by `assess_crisis_level`:
(description, response_time, interventions, monitoring, color). -/
def crisisLevelInfo (level : String) : String × String × List String × String × String :=
  if level == "level_5_critical" then
    ("Critical risk - imminent suicide attempt or severe self-harm", "immediate",
     ["Emergency services (112)", "Immediate hospitalization", "Crisis team dispatch",
      "Family notification"], "continuous_supervision", "darkred")
  else if level == "level_4_high" then
    ("High risk - suicidal ideation with specific plan and means", "immediate",
     ["Emergency services activation", "Immediate professional intervention",
      "Family/emergency contact notification", "Hospital/crisis center referral"],
     "continuous", "red")
  else if level == "level_3_moderate" then
    ("Moderate risk - suicidal ideation with some planning or preparation", "within_1_hour",
     ["Immediate safety assessment", "Crisis counselor contact",
      "Emergency contact notification", "Mental health professional referral"],
     "every_4_hours", "orange")
  else if level == "level_2_low" then
    ("Low risk - mild suicidal ideation without plan or intent", "within_4_hours",
     ["Safety planning", "Crisis helpline information",
      "Family/friend notification (with consent)", "Professional counseling referral"],
     "daily_check_in", "yellow")
  else
    ("Minimal risk - some distressing thoughts but no immediate danger", "within_24_hours",
     ["Self-care resource provision", "Mental health education", "Scheduled follow-up",
      "Support group referral"], "weekly_check_in", "blue")

/-- Embeds `assess_crisis_level`: compute score and factors, derive the
level, and assemble the assessment record (timestamp is the explicit
`now` argument). -/
def assessCrisisLevel (now : String) (r : ResponseSet) : Except Unit CrisisAssessment := do
  let computed ← crisisCompute r
  let score := computed.1
  let level := crisisLevelFor score
  let info := crisisLevelInfo level
  Except.ok
    { level := level
      score := score
      risk_factors := computed.2.1
      protective_factors := computed.2.2
      immediate_action_required := decide (8 ≤ score)
      professional_contact_required := decide (2 ≤ score)
      recommended_interventions := info.2.2.1
      monitoring_frequency := info.2.2.2.1
      description := info.1
      response_time := info.2.1
      color := info.2.2.2.2
      timestamp := now }

/-! Helper lemmas about lookups, updates and bounds. -/

/-- For a positive denominator `b`, the exact rational comparison
`t ≤ (a / b) * 100` (the meaning of the Python float comparison in
`_determine_severity` and the PSQI efficiency computation) coincides with
the integer comparison `t * b ≤ 100 * a` used in the definitions above. -/
theorem ratioPct_le_iff (t a b : Int) (hb : 0 < b) :
    ((t : ℚ) ≤ ((a : ℚ) / (b : ℚ)) * 100) ↔ t * b ≤ 100 * a := by
  have hbq : (0 : ℚ) < (b : ℚ) := by exact_mod_cast hb
  rw [div_mul_eq_mul_div, le_div_iff₀ hbq, mul_comm (a : ℚ) 100]
  exact_mod_cast Iff.rfl

theorem lookupResp_set_same (r : ResponseSet) (q : String) (v : RespValue) :
    lookupResp (setResp r q v) q = some v := by
  simp [lookupResp, setResp, List.find?]

theorem lookupResp_set_ne (r : ResponseSet) {q q' : String} (v : RespValue) (h : q ≠ q') :
    lookupResp (setResp r q v) q' = lookupResp r q' := by
  simp [lookupResp, setResp, List.find?, beq_eq_false_iff_ne.mpr h]

theorem getResp_set_same (r : ResponseSet) (q : String) (v : RespValue) :
    getResp (setResp r q v) q = v := by
  simp [getResp, lookupResp_set_same]

theorem getResp_set_ne (r : ResponseSet) {q q' : String} (v : RespValue) (h : q ≠ q') :
    getResp (setResp r q v) q' = getResp r q' := by
  simp [getResp, lookupResp_set_ne r v h]

theorem getRespD_set_ne (r : ResponseSet) {q q' : String} (v : RespValue) (d : Int) (h : q ≠ q') :
    getRespD (setResp r q v) q' d = getRespD r q' d := by
  simp [getRespD, lookupResp_set_ne r v h]

/-- Every extracted response value of a ResponseSet whose raw values all
extract into [0, 4] lies in [0, 4] (missing keys default to 0). -/
theorem getResp_extract_bounds {r : ResponseSet}
    (hr : ∀ p ∈ r, 0 ≤ extractResponseValue p.2 ∧ extractResponseValue p.2 ≤ 4)
    (q : String) :
    0 ≤ extractResponseValue (getResp r q) ∧ extractResponseValue (getResp r q) ≤ 4 := by
  cases h : lookupResp r q with
  | none => simp [getResp, h, extractResponseValue]
  | some v =>
      simp only [getResp, h, Option.getD_some]
      rcases hfind : r.find? (fun p => p.1 == q) with _ | p
      · simp [lookupResp, hfind] at h
      · have hv : p.2 = v := by simpa [lookupResp, hfind] using h
        exact hv ▸ hr p (List.mem_of_find?_eq_some hfind)

theorem sum_extract_nonneg {r : ResponseSet}
    (hr : ∀ p ∈ r, 0 ≤ extractResponseValue p.2 ∧ extractResponseValue p.2 ≤ 4)
    (qs : List String) : 0 ≤ sumResponses r qs := by
  refine List.sum_nonneg ?_
  intro x hx
  obtain ⟨q, _, rfl⟩ := List.mem_map.mp hx
  exact (getResp_extract_bounds hr q).1

theorem psqiComponentBand_bounds (t : Int) :
    0 ≤ psqiComponentBand t ∧ psqiComponentBand t ≤ 3 := by
  unfold psqiComponentBand; split_ifs <;> norm_num

theorem psqiDisturbanceBand_bounds (t : Int) :
    0 ≤ psqiDisturbanceBand t ∧ psqiDisturbanceBand t ≤ 3 := by
  unfold psqiDisturbanceBand; split_ifs <;> norm_num

theorem psqiDurationBand_bounds (t : Int) :
    0 ≤ psqiDurationBand t ∧ psqiDurationBand t ≤ 3 := by
  unfold psqiDurationBand; split_ifs <;> norm_num

theorem psqiEfficiencyScore_bounds (h b : Int) :
    0 ≤ psqiEfficiencyScore h b ∧ psqiEfficiencyScore h b ≤ 3 := by
  unfold psqiEfficiencyScore; split_ifs <;> norm_num

theorem calcPhq9_bounds {r : ResponseSet}
    (hr : ∀ p ∈ r, 0 ≤ extractResponseValue p.2 ∧ extractResponseValue p.2 ≤ 4) :
    0 ≤ (calcPhq9 r).1 ∧ (calcPhq9 r).1 ≤ 27 := by
  constructor
  · exact le_min (sum_extract_nonneg hr phq9Questions) (by norm_num)
  · exact min_le_right _ _

theorem calcGad7_bounds {r : ResponseSet}
    (hr : ∀ p ∈ r, 0 ≤ extractResponseValue p.2 ∧ extractResponseValue p.2 ≤ 4) :
    0 ≤ (calcGad7 r).1 ∧ (calcGad7 r).1 ≤ 21 := by
  constructor
  · exact le_min (sum_extract_nonneg hr gad7Questions) (by norm_num)
  · exact min_le_right _ _

theorem pss10Item_nonneg {r : ResponseSet}
    (hr : ∀ p ∈ r, 0 ≤ extractResponseValue p.2 ∧ extractResponseValue p.2 ≤ 4)
    (q : String) : 0 ≤ pss10Item r q := by
  have hb := getResp_extract_bounds hr q
  unfold pss10Item pss10ItemScore
  split_ifs <;> omega

theorem calcPss10_bounds {r : ResponseSet}
    (hr : ∀ p ∈ r, 0 ≤ extractResponseValue p.2 ∧ extractResponseValue p.2 ≤ 4) :
    0 ≤ (calcPss10 r).1 ∧ (calcPss10 r).1 ≤ 40 := by
  constructor
  · refine le_min (List.sum_nonneg ?_) (by norm_num)
    intro x hx
    obtain ⟨q, _, rfl⟩ := List.mem_map.mp hx
    exact pss10Item_nonneg hr q
  · exact min_le_right _ _

theorem calcK10_bounds {r : ResponseSet}
    (hr : ∀ p ∈ r, 0 ≤ extractResponseValue p.2 ∧ extractResponseValue p.2 ≤ 4) :
    0 ≤ (calcK10 r).1 ∧ (calcK10 r).1 ≤ 50 := by
  constructor
  · refine le_min (List.sum_nonneg ?_) (by norm_num)
    intro x hx
    obtain ⟨q, _, rfl⟩ := List.mem_map.mp hx
    have := (getResp_extract_bounds hr q).1
    omega
  · exact min_le_right _ _

theorem calcPsqi_bounds {r : ResponseSet}
    (hr : ∀ p ∈ r, 0 ≤ extractResponseValue p.2 ∧ extractResponseValue p.2 ≤ 4) :
    0 ≤ (calcPsqi r).1 ∧ (calcPsqi r).1 ≤ 21 := by
  have h1 := getResp_extract_bounds hr "sleep_quality"
  have h2 := psqiComponentBand_bounds (sumResponses r psqiLatencyQuestions)
  have h3 := psqiDurationBand_bounds (extractResponseValue (getRespD r "hours_sleep" 7))
  have h4 := psqiEfficiencyScore_bounds (extractResponseValue (getRespD r "hours_sleep" 7))
    (extractResponseValue (getRespD r "time_in_bed" 8))
  have h5 := psqiDisturbanceBand_bounds (sumResponses r psqiDisturbanceQuestions)
  have h6 := getResp_extract_bounds hr "sleep_medication"
  have h7 := psqiComponentBand_bounds (sumResponses r psqiDaytimeQuestions)
  have hq1 : (0 : Int) ≤ min (extractResponseValue (getResp r "sleep_quality")) 3 :=
    le_min h1.1 (by norm_num)
  have hq6 : (0 : Int) ≤ min (extractResponseValue (getResp r "sleep_medication")) 3 :=
    le_min h6.1 (by norm_num)
  constructor
  · refine le_min ?_ (by norm_num)
    simp only [calcPsqi, psqiComponents, List.map_cons, List.map_nil, List.sum_cons,
      List.sum_nil]
    omega
  · exact min_le_right _ _

/-! Claim theorems. -/

/-- C1 (counterexample): the claim "total score lies in [0, max] for every
ResponseSet" fails: a raw numeric answer of -5 is passed through unclamped
by `_extract_response_value`, so the PHQ-9 total score is -5 < 0. -/
theorem claim_C1_counterexample :
    (calculateScores "Depression Screening" [("little_interest", RespValue.num (-5))]).1 = -5 ∧
    (calculateScores "Depression Screening" [("little_interest", RespValue.num (-5))]).1 < 0 := by
  constructor <;> decide

/-- C1 (amended): for every supported instrument the total score never
exceeds max_possible_score — unconditionally, for every ResponseSet, by
the `min` cap — and for every ResponseSet whose raw answers all extract
into the item scale [0, 4] the total score lies in
[0, max_possible_score]. -/
theorem claim_C1_total_score_range :
    ∀ t ∈ supportedTypes, ∀ r : ResponseSet,
      (calculateScores t r).1 ≤ maxScoreFor t
      ∧ ((∀ p ∈ r, 0 ≤ extractResponseValue p.2 ∧ extractResponseValue p.2 ≤ 4) →
          0 ≤ (calculateScores t r).1 ∧ (calculateScores t r).1 ≤ maxScoreFor t) := by
  intro t ht r
  fin_cases ht
  · exact ⟨min_le_right _ _, fun hr => calcPhq9_bounds hr⟩
  · exact ⟨min_le_right _ _, fun hr => calcGad7_bounds hr⟩
  · exact ⟨min_le_right _ _, fun hr => calcPss10_bounds hr⟩
  · exact ⟨min_le_right _ _, fun hr => calcPsqi_bounds hr⟩
  · exact ⟨min_le_right _ _, fun hr => calcK10_bounds hr⟩

/-- C1 (witness): the range theorem applied to a concrete PHQ-9
submission — the unconditional cap at an out-of-scale raw answer 99, and
the full [0, max] range at an in-scale submission. -/
theorem claim_C1_witness :
    (calculateScores "Depression Screening" [("little_interest", RespValue.num 99)]).1
        ≤ maxScoreFor "Depression Screening"
    ∧ (0 ≤ (calculateScores "Depression Screening"
          [("feeling_down", RespValue.num 3), ("sleep_problems", RespValue.num 2)]).1
       ∧ (calculateScores "Depression Screening"
          [("feeling_down", RespValue.num 3), ("sleep_problems", RespValue.num 2)]).1 ≤
        maxScoreFor "Depression Screening") :=
  ⟨(claim_C1_total_score_range "Depression Screening" (by decide)
      [("little_interest", RespValue.num 99)]).1,
   (claim_C1_total_score_range "Depression Screening" (by decide)
      [("feeling_down", RespValue.num 3), ("sleep_problems", RespValue.num 2)]).2 (by decide)⟩

/-- C2 (confirmed): for every supported instrument and every integer total
score in [0, max_possible_score], at most one cutoff interval contains the
score (the tables do not overlap, so "first containing interval" is "the
containing interval"), the classifier returns the first containing
interval's band and otherwise the percentage-of-max fallback, the cutoff
tables cover the whole range for every instrument except K10, and on the
K10 gap 0..9 the fallback yields minimal.  The classifier is a total
function and never fails. -/
theorem claim_C2_severity_classifier :
    ∀ t ∈ supportedTypes, ∀ s : Int, 0 ≤ s → s ≤ maxScoreFor t →
      (((cutoffsFor t).filter (fun c => decide (c.2.1 ≤ s) && decide (s ≤ c.2.2))).length ≤ 1)
      ∧ determineSeverity t s =
          (match (cutoffsFor t).find? (fun c => decide (c.2.1 ≤ s) && decide (s ≤ c.2.2)) with
           | some c => severityMapping c.1
           | none => fallbackSeverity (maxScoreFor t) s)
      ∧ (t = "General Mental Health Screening" ∨
          ((cutoffsFor t).find? (fun c => decide (c.2.1 ≤ s) && decide (s ≤ c.2.2))).isSome = true)
      ∧ (t = "General Mental Health Screening" → s < 10 →
          determineSeverity t s = SeverityLevel.minimal) := by
  intro t ht s h0 h1
  fin_cases ht
  · have h1' : s ≤ 27 := h1
    interval_cases s <;> exact (by decide)
  · have h1' : s ≤ 21 := h1
    interval_cases s <;> exact (by decide)
  · have h1' : s ≤ 40 := h1
    interval_cases s <;> exact (by decide)
  · have h1' : s ≤ 21 := h1
    interval_cases s <;> exact (by decide)
  · have h1' : s ≤ 50 := h1
    interval_cases s <;> exact (by decide)

/-- C2 (witness): the classifier theorem applied to PHQ-9 at score 12. -/
theorem claim_C2_witness :
    ((cutoffsFor "Depression Screening").filter
        (fun c => decide (c.2.1 ≤ (12 : Int)) && decide ((12 : Int) ≤ c.2.2))).length ≤ 1 :=
  (claim_C2_severity_classifier "Depression Screening" (by decide) 12 (by decide) (by decide)).1

/-! Monotonicity helpers for C3. -/

theorem extract_set_mono (r : ResponseSet) (q : String) {a b : Int} (hab : a ≤ b) (qi : String) :
    extractResponseValue (getResp (setResp r q (RespValue.num a)) qi)
      ≤ extractResponseValue (getResp (setResp r q (RespValue.num b)) qi) := by
  by_cases h : q = qi
  · subst h
    rw [getResp_set_same, getResp_set_same]
    exact hab
  · rw [getResp_set_ne r _ h, getResp_set_ne r _ h]

theorem sumResponses_set_mono (r : ResponseSet) (qs : List String) (q : String)
    {a b : Int} (hab : a ≤ b) :
    sumResponses (setResp r q (RespValue.num a)) qs
      ≤ sumResponses (setResp r q (RespValue.num b)) qs :=
  List.sum_le_sum (fun qi _ => extract_set_mono r q hab qi)

theorem pss10Item_set_mono (r : ResponseSet) {q : String} (hq : ¬ q ∈ pss10Reverse)
    {a b : Int} (hab : a ≤ b) (qi : String) :
    pss10Item (setResp r q (RespValue.num a)) qi
      ≤ pss10Item (setResp r q (RespValue.num b)) qi := by
  by_cases h : q = qi
  · subst h
    have hc : pss10Reverse.contains q = false := by
      cases hcc : pss10Reverse.contains q
      · rfl
      · exact absurd (List.mem_of_elem_eq_true hcc) hq
    unfold pss10Item pss10ItemScore
    rw [getResp_set_same, getResp_set_same, hc]
    simpa using hab
  · unfold pss10Item
    rw [getResp_set_ne r _ h, getResp_set_ne r _ h]

theorem pss10Item_set_anti (r : ResponseSet) {q : String} (hq : q ∈ pss10Reverse)
    {a b : Int} (hab : a ≤ b) (qi : String) :
    pss10Item (setResp r q (RespValue.num b)) qi
      ≤ pss10Item (setResp r q (RespValue.num a)) qi := by
  by_cases h : q = qi
  · subst h
    have hc : pss10Reverse.contains q = true := List.elem_eq_true_of_mem hq
    unfold pss10Item pss10ItemScore
    rw [getResp_set_same, getResp_set_same, hc]
    simp only [extractResponseValue, if_true]
    omega
  · unfold pss10Item
    rw [getResp_set_ne r _ h, getResp_set_ne r _ h]

theorem hasCritical_set_mono (r : ResponseSet) (q : String) {a b : Int} (hab : a ≤ b) :
    hasCritical (setResp r q (RespValue.num a)) = true →
      hasCritical (setResp r q (RespValue.num b)) = true := by
  simp only [hasCritical, List.any_eq_true, decide_eq_true_eq]
  rintro ⟨i, hi, hge⟩
  exact ⟨i, hi, le_trans hge (extract_set_mono r q hab i)⟩

theorem hasHighRisk_set_mono (r : ResponseSet) (q : String) {a b : Int} (hab : a ≤ b) :
    hasHighRisk (setResp r q (RespValue.num a)) = true →
      hasHighRisk (setResp r q (RespValue.num b)) = true := by
  simp only [hasHighRisk, List.any_eq_true, decide_eq_true_eq]
  rintro ⟨i, hi, hge⟩
  exact ⟨i, hi, le_trans hge (extract_set_mono r q hab i)⟩

theorem riskRank_le_three (l : RiskLevel) : riskRank l ≤ 3 := by
  cases l <;> simp [riskRank]

/-- The risk-level ladder of `_assess_risk_level` is monotone: if every
risk input (critical indicators, high-risk indicators, total score) is at
least as high on the second ResponseSet, the risk rank does not drop. -/
theorem assessRiskLevel_mono (t : String) {r1 r2 : ResponseSet} {ta tb : Int}
    (hc : hasCritical r1 = true → hasCritical r2 = true)
    (hh : hasHighRisk r1 = true → hasHighRisk r2 = true)
    (ht : ta ≤ tb) :
    riskRank (assessRiskLevel t r1 ta) ≤ riskRank (assessRiskLevel t r2 tb) := by
  unfold assessRiskLevel
  by_cases h2 : hasCritical r2 = true
  · rw [if_pos h2]
    exact le_trans (riskRank_le_three _) (by simp [riskRank])
  · have h1 : ¬ hasCritical r1 = true := fun hx => h2 (hc hx)
    rw [if_neg h1, if_neg h2]
    by_cases g2 : (hasHighRisk r2 || decide (tb > 20)) = true
    · rw [if_pos g2]
      split_ifs <;> simp [riskRank]
    · have g1 : ¬ (hasHighRisk r1 || decide (ta > 20)) = true := by
        intro gx
        apply g2
        rw [Bool.or_eq_true] at gx
        rw [Bool.or_eq_true]
        rcases gx with hx | hx
        · exact Or.inl (hh hx)
        · have hta : ta > 20 := of_decide_eq_true hx
          exact Or.inr (decide_eq_true (by omega))
      rw [if_neg g1, if_neg g2]
      by_cases m1 : ta > 10
      · rw [if_pos m1, if_pos (show tb > 10 by omega)]
      · rw [if_neg m1]
        split_ifs <;> simp [riskRank]

/-- C3 (counterexample): increasing the PSS-10 reverse-scored item
`confident_personal` from 0 to 4 (others fixed) drops the total from 21
to 17 and the risk level from high to moderate; and for PSQI, increasing
`hours_sleep` from 4 to 8 drops the total from 6 to 0. -/
theorem claim_C3_counterexample :
    (calculateScores "Stress & Trauma Assessment"
        [("upset_unexpected", RespValue.num 4), ("nervous_stressed", RespValue.num 1),
         ("confident_personal", RespValue.num 4)]).1
      < (calculateScores "Stress & Trauma Assessment"
        [("upset_unexpected", RespValue.num 4), ("nervous_stressed", RespValue.num 1),
         ("confident_personal", RespValue.num 0)]).1
    ∧ riskRank (assessRiskLevel "Stress & Trauma Assessment"
        [("upset_unexpected", RespValue.num 4), ("nervous_stressed", RespValue.num 1),
         ("confident_personal", RespValue.num 4)]
        (calculateScores "Stress & Trauma Assessment"
          [("upset_unexpected", RespValue.num 4), ("nervous_stressed", RespValue.num 1),
           ("confident_personal", RespValue.num 4)]).1)
      < riskRank (assessRiskLevel "Stress & Trauma Assessment"
        [("upset_unexpected", RespValue.num 4), ("nervous_stressed", RespValue.num 1),
         ("confident_personal", RespValue.num 0)]
        (calculateScores "Stress & Trauma Assessment"
          [("upset_unexpected", RespValue.num 4), ("nervous_stressed", RespValue.num 1),
           ("confident_personal", RespValue.num 0)]).1)
    ∧ (calculateScores "Sleep Disorders Screening" [("hours_sleep", RespValue.num 8)]).1
      < (calculateScores "Sleep Disorders Screening" [("hours_sleep", RespValue.num 4)]).1 := by
  refine ⟨by decide, by decide, by decide⟩

/-- C3 (amended): increasing a single numeric response never decreases the
total score or the computed risk level for the simple-sum instruments
(PHQ-9, GAD-7, K10), and for PSS-10 provided the item is not
reverse-scored; on a PSS-10 reverse-scored item the total instead never
increases (so the original claim fails there, and PSQI items such as
`hours_sleep` are likewise anti-monotone). -/
theorem claim_C3_monotonicity :
    ∀ (r : ResponseSet) (q : String) (a b : Int), a ≤ b →
      (∀ t ∈ ["Depression Screening", "Anxiety Disorders Screening",
              "General Mental Health Screening"],
        (calculateScores t (setResp r q (RespValue.num a))).1
          ≤ (calculateScores t (setResp r q (RespValue.num b))).1
        ∧ riskRank (assessRiskLevel t (setResp r q (RespValue.num a))
              (calculateScores t (setResp r q (RespValue.num a))).1)
            ≤ riskRank (assessRiskLevel t (setResp r q (RespValue.num b))
              (calculateScores t (setResp r q (RespValue.num b))).1))
      ∧ (¬ q ∈ pss10Reverse →
          (calculateScores "Stress & Trauma Assessment" (setResp r q (RespValue.num a))).1
            ≤ (calculateScores "Stress & Trauma Assessment" (setResp r q (RespValue.num b))).1
          ∧ riskRank (assessRiskLevel "Stress & Trauma Assessment"
                (setResp r q (RespValue.num a))
                (calculateScores "Stress & Trauma Assessment" (setResp r q (RespValue.num a))).1)
              ≤ riskRank (assessRiskLevel "Stress & Trauma Assessment"
                (setResp r q (RespValue.num b))
                (calculateScores "Stress & Trauma Assessment" (setResp r q (RespValue.num b))).1))
      ∧ (q ∈ pss10Reverse →
          (calculateScores "Stress & Trauma Assessment" (setResp r q (RespValue.num b))).1
            ≤ (calculateScores "Stress & Trauma Assessment" (setResp r q (RespValue.num a))).1) := by
  intro r q a b hab
  refine ⟨?_, ?_, ?_⟩
  · intro t ht
    fin_cases ht
    · have htot : (calcPhq9 (setResp r q (RespValue.num a))).1
          ≤ (calcPhq9 (setResp r q (RespValue.num b))).1 :=
        min_le_min (sumResponses_set_mono r phq9Questions q hab) le_rfl
      exact ⟨htot, assessRiskLevel_mono _ (hasCritical_set_mono r q hab)
        (hasHighRisk_set_mono r q hab) htot⟩
    · have htot : (calcGad7 (setResp r q (RespValue.num a))).1
          ≤ (calcGad7 (setResp r q (RespValue.num b))).1 :=
        min_le_min (sumResponses_set_mono r gad7Questions q hab) le_rfl
      exact ⟨htot, assessRiskLevel_mono _ (hasCritical_set_mono r q hab)
        (hasHighRisk_set_mono r q hab) htot⟩
    · have htot : (calcK10 (setResp r q (RespValue.num a))).1
          ≤ (calcK10 (setResp r q (RespValue.num b))).1 := by
        refine min_le_min (List.sum_le_sum ?_) le_rfl
        intro qi _
        have := extract_set_mono r q hab qi
        omega
      exact ⟨htot, assessRiskLevel_mono _ (hasCritical_set_mono r q hab)
        (hasHighRisk_set_mono r q hab) htot⟩
  · intro hq
    have htot : (calcPss10 (setResp r q (RespValue.num a))).1
        ≤ (calcPss10 (setResp r q (RespValue.num b))).1 :=
      min_le_min (List.sum_le_sum (fun qi _ => pss10Item_set_mono r hq hab qi)) le_rfl
    exact ⟨htot, assessRiskLevel_mono _ (hasCritical_set_mono r q hab)
      (hasHighRisk_set_mono r q hab) htot⟩
  · intro hq
    exact min_le_min (List.sum_le_sum (fun qi _ => pss10Item_set_anti r hq hab qi)) le_rfl

/-- C3 (witness): the monotonicity theorem applied to PHQ-9 with
`feeling_down` raised from 1 to 3 over a concrete base ResponseSet. -/
theorem claim_C3_witness :
    (calculateScores "Depression Screening"
        (setResp [("little_interest", RespValue.num 2)] "feeling_down" (RespValue.num 1))).1
      ≤ (calculateScores "Depression Screening"
        (setResp [("little_interest", RespValue.num 2)] "feeling_down" (RespValue.num 3))).1 :=
  ((claim_C3_monotonicity [("little_interest", RespValue.num 2)] "feeling_down" 1 3
      (by norm_num)).1 "Depression Screening" (by simp)).1

/-- C4 (counterexample): `dep_005 = 1` with all other responses absent
triggers the suicidality risk factor, yet `immediate_action_required` is
false (risk score 1, level_1_minimal) — the claimed crisis forcing does
not hold. -/
theorem claim_C4_counterexample :
    (assessCrisisLevel "2025-01-01T00:00:00" [("dep_005", RespValue.num 1)]).map
        (fun a => (a.immediate_action_required, a.score, a.level, a.risk_factors))
      = Except.ok (false, 1, "level_1_minimal", ["Rare thoughts of death or self-harm"]) := by
  rfl

/-- C4 (amended): `immediate_action_required` is true exactly when the
accumulated crisis risk score reaches 8; no `dep_005` value on its own can
reach that threshold (it contributes at most 4), so a lone suicidality
answer — crisis flag included — never sets `immediate_action_required`. -/
theorem claim_C4_crisis_forcing :
    (∀ (now : String) (r : ResponseSet) (a : CrisisAssessment),
        assessCrisisLevel now r = Except.ok a →
        (a.immediate_action_required = true ↔ 8 ≤ a.score))
    ∧ (∀ (now : String) (n : Int),
        match assessCrisisLevel now [("dep_005", RespValue.num n)] with
        | Except.ok a => a.immediate_action_required = false ∧ a.score ≤ 4
        | Except.error _ => False) := by
  constructor
  · intro now r a h
    unfold assessCrisisLevel at h
    cases hc : crisisCompute r with
    | error e =>
        rw [hc] at h
        simp [Bind.bind, Except.bind] at h
    | ok v =>
        rw [hc] at h
        have h' := Except.ok.inj h
        subst h'
        exact decide_eq_true_iff
  · intro now n
    by_cases h3 : 3 ≤ n
    · simp [assessCrisisLevel, crisisCompute, anyIntGe, asInt, getRespD, lookupResp,
        eqStr, inStrList, List.find?, h3, crisisLevelFor, Bind.bind, Except.bind]
    · by_cases h2 : 2 ≤ n
      · simp [assessCrisisLevel, crisisCompute, anyIntGe, asInt, getRespD, lookupResp,
          eqStr, inStrList, List.find?, h3, h2, crisisLevelFor, Bind.bind, Except.bind]
      · by_cases h1 : 1 ≤ n
        · simp [assessCrisisLevel, crisisCompute, anyIntGe, asInt, getRespD, lookupResp,
            eqStr, inStrList, List.find?, h3, h2, h1, crisisLevelFor, Bind.bind, Except.bind]
        · simp [assessCrisisLevel, crisisCompute, anyIntGe, asInt, getRespD, lookupResp,
            eqStr, inStrList, List.find?, h3, h2, h1, crisisLevelFor, Bind.bind, Except.bind]

/-- The crisis assessment produced for a combined high-risk input
(immediate ideation with a specific plan, risk score 9): used to witness
the crisis-forcing characterization at a concrete record. -/
def c4WitnessAssessment : CrisisAssessment :=
  { level := "level_4_high"
    score := 9
    risk_factors := ["Immediate suicidal ideation", "Specific suicide plan"]
    protective_factors := ["Good sleep quality"]
    immediate_action_required := true
    professional_contact_required := true
    recommended_interventions :=
      ["Emergency services activation", "Immediate professional intervention",
       "Family/emergency contact notification", "Hospital/crisis center referral"]
    monitoring_frequency := "continuous"
    description := "High risk - suicidal ideation with specific plan and means"
    response_time := "immediate"
    color := "red"
    timestamp := "2025-01-01T00:00:00" }

/-- C4 (witness): the characterization applied at a concrete crisis input
whose risk score is 9. -/
theorem claim_C4_witness :
    c4WitnessAssessment.immediate_action_required = true ↔ 8 ≤ c4WitnessAssessment.score :=
  claim_C4_crisis_forcing.1 "2025-01-01T00:00:00"
    [("crisis_suicide_001", RespValue.str "Right now"),
     ("crisis_suicide_002", RespValue.str "Specific plan")]
    c4WitnessAssessment (by rfl)

/-- C5 (counterexample): running the classifier twice on the same input
yields records that differ in the `timestamp` field (which records the
wall-clock reading of each call), so the results are not byte-identical. -/
theorem claim_C5_counterexample :
    analyzeAssessment "2025-01-01T00:00:00" "Depression Screening" []
      ≠ analyzeAssessment "2025-01-01T00:00:01" "Depression Screening" [] := by
  intro h
  have h2 : ("2025-01-01T00:00:00" : String) = "2025-01-01T00:00:01" :=
    congrArg AnalysisResult.timestamp h
  exact absurd h2 (by decide)

/-- C5 (amended): the classifier is deterministic in every field except
`timestamp`: two runs on the same instrument and ResponseSet agree field
for field on all ten content fields, and `timestamp` merely echoes the
clock reading of the call. -/
theorem claim_C5_determinism :
    ∀ (t : String) (r : ResponseSet) (now1 now2 : String),
      (analyzeAssessment now1 t r).assessment_type = (analyzeAssessment now2 t r).assessment_type
      ∧ (analyzeAssessment now1 t r).total_score = (analyzeAssessment now2 t r).total_score
      ∧ (analyzeAssessment now1 t r).max_possible_score = (analyzeAssessment now2 t r).max_possible_score
      ∧ (analyzeAssessment now1 t r).severity_level = (analyzeAssessment now2 t r).severity_level
      ∧ (analyzeAssessment now1 t r).risk_level = (analyzeAssessment now2 t r).risk_level
      ∧ (analyzeAssessment now1 t r).domain_scores = (analyzeAssessment now2 t r).domain_scores
      ∧ (analyzeAssessment now1 t r).clinical_interpretation
          = (analyzeAssessment now2 t r).clinical_interpretation
      ∧ (analyzeAssessment now1 t r).recommendations = (analyzeAssessment now2 t r).recommendations
      ∧ (analyzeAssessment now1 t r).red_flags = (analyzeAssessment now2 t r).red_flags
      ∧ (analyzeAssessment now1 t r).next_steps = (analyzeAssessment now2 t r).next_steps
      ∧ (analyzeAssessment now1 t r).timestamp = now1 :=
  fun _ _ _ _ => ⟨rfl, rfl, rfl, rfl, rfl, rfl, rfl, rfl, rfl, rfl, rfl⟩

/-- C6 (counterexample): an unknown instrument id does not abort the call
with any error — `_calculate_scores` falls through to summation over the
empty question list of the empty configuration and a full best-effort
result is produced (total 0, default max 100, minimal severity). -/
theorem claim_C6_counterexample :
    (analyzeAssessment "2025-01-01T00:00:00" "Cognitive Decline Screening"
        [("q1", RespValue.num 3)]).total_score = 0
    ∧ (analyzeAssessment "2025-01-01T00:00:00" "Cognitive Decline Screening"
        [("q1", RespValue.num 3)]).max_possible_score = 100
    ∧ (analyzeAssessment "2025-01-01T00:00:00" "Cognitive Decline Screening"
        [("q1", RespValue.num 3)]).severity_level = SeverityLevel.minimal :=
  ⟨rfl, rfl, rfl⟩

/-- C6 (amended): no instrument id is fatal.  Every id outside the five
configured assessment types is absorbed: scoring falls back to the empty
configuration, producing total score 0, no domain scores, and the default
max score 100, and the analysis still completes. -/
theorem claim_C6_no_fatal_instrument_error :
    ∀ (now t : String) (r : ResponseSet), ¬ t ∈ supportedTypes →
      calculateScores t r = (0, [])
      ∧ (analyzeAssessment now t r).total_score = 0
      ∧ (analyzeAssessment now t r).max_possible_score = 100 := by
  intro now t r ht
  simp only [supportedTypes, List.mem_cons, List.not_mem_nil, or_false, not_or] at ht
  obtain ⟨h1, h2, h3, h4, h5⟩ := ht
  have b1 : (t == "Depression Screening") = false := beq_eq_false_iff_ne.mpr h1
  have b2 : (t == "Anxiety Disorders Screening") = false := beq_eq_false_iff_ne.mpr h2
  have b3 : (t == "Stress & Trauma Assessment") = false := beq_eq_false_iff_ne.mpr h3
  have b4 : (t == "Sleep Disorders Screening") = false := beq_eq_false_iff_ne.mpr h4
  have b5 : (t == "General Mental Health Screening") = false := beq_eq_false_iff_ne.mpr h5
  have hcs : calculateScores t r = (0, []) := by
    simp [calculateScores, b1, b2, b3, b4, b5]
  refine ⟨hcs, ?_, ?_⟩
  · show (calculateScores t r).1 = 0
    rw [hcs]
  · show maxScoreFor t = 100
    simp [maxScoreFor, b1, b2, b3, b4, b5]

/-- C6 (witness): the no-fatal-error theorem applied to a concrete unknown
instrument id. -/
theorem claim_C6_witness :
    calculateScores "Adaptive Testing Mode" [] = (0, [])
    ∧ (analyzeAssessment "2025-01-01T00:00:00" "Adaptive Testing Mode" []).total_score = 0
    ∧ (analyzeAssessment "2025-01-01T00:00:00" "Adaptive Testing Mode" []).max_possible_score = 100 :=
  claim_C6_no_fatal_instrument_error "2025-01-01T00:00:00" "Adaptive Testing Mode" [] (by decide)

/-- C7 (counterexample): the normalizer neither counts multi-select lists
nor clamps numeric input — a two-element list extracts to 0 (not 2), and
the numeric answer 99 passes through far beyond every declared item scale
(max 4). -/
theorem claim_C7_counterexample :
    extractResponseValue (RespValue.list ["option_a", "option_b"]) = 0
    ∧ extractResponseValue (RespValue.num 99) = 99
    ∧ (4 : Int) < extractResponseValue (RespValue.num 99) :=
  ⟨rfl, rfl, by decide⟩

/-- C7 (amended): numeric input passes through unchanged (no clamping),
every list input normalizes to 0 regardless of selection count, and a
non-digit string normalizes through the Likert table into [0, 4]
(unrecognized strings default to 0). -/
theorem claim_C7_normalizer :
    (∀ n : Int, extractResponseValue (RespValue.num n) = n)
    ∧ (∀ l : List String, extractResponseValue (RespValue.list l) = 0)
    ∧ (∀ s : String, strIsDigits s = false →
        0 ≤ extractResponseValue (RespValue.str s)
        ∧ extractResponseValue (RespValue.str s) ≤ 4) := by
  refine ⟨fun _ => rfl, fun _ => rfl, ?_⟩
  intro s hs
  have htable : ∀ p ∈ likertMap, 0 ≤ p.2 ∧ p.2 ≤ 4 := by decide
  simp only [extractResponseValue, hs, Bool.false_eq_true, if_false]
  cases hfind : likertMap.find? (fun p => p.1 == s.toLower) with
  | none => simp [hfind]
  | some p =>
      simp only [hfind, Option.map_some', Option.getD_some]
      exact htable p (List.mem_of_find?_eq_some hfind)

/-- C7 (witness): the normalizer theorem applied to the Likert string
"sometimes". -/
theorem claim_C7_witness :
    0 ≤ extractResponseValue (RespValue.str "sometimes")
    ∧ extractResponseValue (RespValue.str "sometimes") ≤ 4 :=
  claim_C7_normalizer.2.2 "sometimes" (by decide)

/-- Updating an absent key with the explicit value 0 leaves every
default-0 lookup unchanged. -/
theorem getResp_set_zero_absent (r : ResponseSet) {q : String}
    (h : lookupResp r q = none) (qi : String) :
    getResp (setResp r q (RespValue.num 0)) qi = getResp r qi := by
  by_cases hq : q = qi
  · subst hq
    rw [getResp_set_same]
    simp [getResp, h]
  · exact getResp_set_ne r _ hq

/-- C8 (counterexample): a ResponseSet with no `hours_sleep` key is NOT
scored like one with `hours_sleep = 0` — PSQI reads a missing
`hours_sleep` as 7 (and a missing `time_in_bed` as 8), giving total 0,
while an explicit 0 gives total 6. -/
theorem claim_C8_counterexample :
    (calculateScores "Sleep Disorders Screening" []).1 = 0
    ∧ (calculateScores "Sleep Disorders Screening" [("hours_sleep", RespValue.num 0)]).1 = 6
    ∧ (calculateScores "Sleep Disorders Screening" []).1
        ≠ (calculateScores "Sleep Disorders Screening" [("hours_sleep", RespValue.num 0)]).1 :=
  ⟨by decide, by decide, by decide⟩

/-- C8 (amended): a question id absent from the ResponseSet is treated as
the value 0 and never raises — for PHQ-9, GAD-7, PSS-10 and K10 on every
question, and for PSQI on every question except `hours_sleep` (read as 7
when missing) and `time_in_bed` (read as 8 when missing); a PHQ-9
submission answering only 4 of the 9 questions still yields the valid
lower total 8 (severity mild). -/
theorem claim_C8_missing_questions :
    ∀ (r : ResponseSet) (q : String), lookupResp r q = none →
      (∀ t ∈ ["Depression Screening", "Anxiety Disorders Screening",
              "Stress & Trauma Assessment", "General Mental Health Screening"],
          calculateScores t (setResp r q (RespValue.num 0)) = calculateScores t r)
      ∧ (¬ q ∈ ["hours_sleep", "time_in_bed"] →
          calculateScores "Sleep Disorders Screening" (setResp r q (RespValue.num 0))
            = calculateScores "Sleep Disorders Screening" r)
      ∧ ((calculateScores "Depression Screening"
            [("little_interest", RespValue.num 3), ("feeling_down", RespValue.num 2),
             ("sleep_problems", RespValue.num 1), ("tired_little_energy", RespValue.num 2)]).1 = 8
          ∧ determineSeverity "Depression Screening" 8 = SeverityLevel.mild) := by
  intro r q h
  have hpt : ∀ qi, getResp (setResp r q (RespValue.num 0)) qi = getResp r qi :=
    getResp_set_zero_absent r h
  refine ⟨?_, ?_, by decide, by decide⟩
  · intro t ht
    fin_cases ht
    · show calcPhq9 _ = calcPhq9 r
      simp [calcPhq9, sumResponses, hpt]
    · show calcGad7 _ = calcGad7 r
      simp [calcGad7, sumResponses, hpt]
    · show calcPss10 _ = calcPss10 r
      have hps : pss10Item (setResp r q (RespValue.num 0)) = pss10Item r := by
        funext qi
        unfold pss10Item
        rw [hpt]
      simp [calcPss10, hps]
    · show calcK10 _ = calcK10 r
      simp [calcK10, hpt]
  · intro hq
    simp only [List.mem_cons, List.not_mem_nil, or_false, not_or, List.mem_singleton] at hq
    obtain ⟨hq1, hq2⟩ := hq
    have e1 : getRespD (setResp r q (RespValue.num 0)) "hours_sleep" 7
        = getRespD r "hours_sleep" 7 := getRespD_set_ne r _ _ hq1
    have e2 : getRespD (setResp r q (RespValue.num 0)) "time_in_bed" 8
        = getRespD r "time_in_bed" 8 := getRespD_set_ne r _ _ hq2
    show calcPsqi _ = calcPsqi r
    simp [calcPsqi, psqiComponents, sumResponses, hpt, e1, e2]

/-- C8 (witness): the missing-question theorem applied to PHQ-9 with
`little_interest` absent from a concrete ResponseSet. -/
theorem claim_C8_witness :
    calculateScores "Depression Screening"
        (setResp [("feeling_down", RespValue.num 2)] "little_interest" (RespValue.num 0))
      = calculateScores "Depression Screening" [("feeling_down", RespValue.num 2)] :=
  (claim_C8_missing_questions [("feeling_down", RespValue.num 2)] "little_interest"
      (by decide)).1 "Depression Screening" (by decide)

/-- C9 (confirmed): every reverse-scored PSS-10 item contributes
`scale_max - x = 4 - x` for every valid response x in [0, 4], so the
normalized and reverse-normalized values always sum to the scale maximum
4; and the all-2s PSS-10 response vector totals the symmetric midpoint
20. -/
theorem claim_C9_reverse_scoring :
    (∀ q ∈ pss10Reverse, ∀ x : Int, 0 ≤ x → x ≤ 4 →
        pss10ItemScore q x = 4 - x ∧ x + pss10ItemScore q x = 4)
    ∧ (calculateScores "Stress & Trauma Assessment"
        [("upset_unexpected", RespValue.num 2), ("unable_control", RespValue.num 2),
         ("nervous_stressed", RespValue.num 2), ("confident_personal", RespValue.num 2),
         ("things_going_way", RespValue.num 2), ("could_not_cope", RespValue.num 2),
         ("control_irritations", RespValue.num 2), ("on_top_things", RespValue.num 2),
         ("angered_outside_control", RespValue.num 2),
         ("difficulties_piling", RespValue.num 2)]).1 = 20 := by
  constructor
  · intro q hq x _ _
    have hc : pss10Reverse.contains q = true := List.elem_eq_true_of_mem hq
    constructor
    · unfold pss10ItemScore
      rw [hc, if_pos rfl]
    · unfold pss10ItemScore
      rw [hc, if_pos rfl]
      omega
  · decide

/-- C9 (witness): the reverse-scoring theorem applied to
`confident_personal` at the midpoint response 2. -/
theorem claim_C9_witness :
    pss10ItemScore "confident_personal" 2 = 4 - 2
    ∧ (2 : Int) + pss10ItemScore "confident_personal" 2 = 4 :=
  claim_C9_reverse_scoring.1 "confident_personal" (by decide) 2 (by decide) (by decide)

/-- C10 (confirmed): the risk thresholds are absolute constants, identical
for every instrument (the assessment-type argument is ignored): with no
critical indicator at 2+ and no high-risk indicator at 3+, the risk level
is high exactly when total > 20, moderate exactly when 10 < total ≤ 20,
and low otherwise. -/
theorem claim_C10_risk_thresholds :
    (∀ (t : String) (r : ResponseSet) (s : Int),
        (∀ i ∈ criticalResponses, extractResponseValue (getResp r i) < 2) →
        (∀ i ∈ highRiskResponses, extractResponseValue (getResp r i) < 3) →
        assessRiskLevel t r s =
          (if 20 < s then RiskLevel.high
           else if 10 < s then RiskLevel.moderate
           else RiskLevel.low))
    ∧ (∀ (t1 t2 : String) (r : ResponseSet) (s : Int),
        assessRiskLevel t1 r s = assessRiskLevel t2 r s) := by
  constructor
  · intro t r s h1 h2
    have hc : hasCritical r = false := by
      rw [hasCritical, List.any_eq_false]
      intro i hi
      simp only [decide_eq_true_eq]
      exact not_le.mpr (h1 i hi)
    have hh : hasHighRisk r = false := by
      rw [hasHighRisk, List.any_eq_false]
      intro i hi
      simp only [decide_eq_true_eq]
      exact not_le.mpr (h2 i hi)
    simp [assessRiskLevel, hc, hh, decide_eq_true_eq]
  · intro t1 t2 r s
    rfl

/-- C10 (witness): the threshold theorem applied to an empty ResponseSet
at total score 25 (risk high). -/
theorem claim_C10_witness :
    assessRiskLevel "Depression Screening" [] 25 =
      (if 20 < (25 : Int) then RiskLevel.high
       else if 10 < (25 : Int) then RiskLevel.moderate
       else RiskLevel.low) :=
  claim_C10_risk_thresholds.1 "Depression Screening" [] 25 (by decide) (by decide)

end MindScan
